import Mathlib

/-!
Shallow embedding of `src/multi_tool_agent/agent.py` (the repository
command-execution and state-context layer wired into the agents).

Modelling conventions:
* `RepoContext` mirrors the module-global `repo_context` object; operations
  that mutate it return the new context explicitly.
* External effects (subprocess invocations, file reads/writes) are modelled
  by oracles carried in an `Env` / explicit function arguments, and the
  side effects an operation performs are returned as a `List Effect` trace
  where a claim talks about side effects.
* Python exceptions escaping a function are modelled with `Except PyExn`;
  a function that can only return a string is a plain `String` function.
* Machine-level details (socket binding, the two `subprocess.run` wrappers)
  are represented by their observable outcomes (`ProcResult`, `RunOut`).
* `os.path.join ctxPath name` for the relative names used here is modelled
  as `ctxPath ++ "/" ++ name`; `os.path.join(None, name)` raises `TypeError`
  in CPython, which the model reflects where the source hits that case.
-/

/-- Substring test on character lists: does the second list start with the
first (the pattern)? Models Python's `str.startswith`. -/
def startsWithChars : List Char → List Char → Bool
  | [], _ => true
  | _ :: _, [] => false
  | p :: ps, c :: cs => p == c && startsWithChars ps cs

/-- Does the string list contain the pattern (first argument) as a
contiguous run? -/
def containsChars (pat : List Char) : List Char → Bool
  | [] => startsWithChars pat []
  | c :: cs => startsWithChars pat (c :: cs) || containsChars pat cs

/-- Python's `pat in s` substring test. -/
def strContains (s pat : String) : Bool := containsChars pat.data s.data

/-- Python's `s.startswith(pat)`. -/
def strStartsWith (s pat : String) : Bool := startsWithChars pat.data s.data

/-- Python's `s.strip()`: drop whitespace from both ends. Written over the
character list so that it evaluates by kernel reduction. -/
def pyStrip (s : String) : String :=
  ⟨((s.data.dropWhile Char.isWhitespace).reverse.dropWhile Char.isWhitespace).reverse⟩

/-- Model of `os.path.join` for a set context path and a relative name. -/
def osJoin (a b : String) : String := a ++ "/" ++ b

/-- Modelled CPython message of the `TypeError` raised by
`os.path.join(None, name)` (the context path being unset). -/
def joinNoneTypeErrorMsg : String :=
  "expected str, bytes or os.PathLike object, not NoneType"

/-- A Python exception escaping one of the agent tools. -/
inductive PyExn where
  | typeError (msg : String)
  | runtimeError (msg : String)
  | calledProcessError (stderr : String)
  deriving DecidableEq

/-- Outcome of a `subprocess.run(..., check=True)` call: captured stdout on
exit code 0, else the `CalledProcessError`'s captured stderr. -/
inductive ProcResult where
  | ok (stdout : String)
  | err (stderr : String)
  deriving DecidableEq

/-- Outcome of a `subprocess.run` call without `check=True`: the
`CompletedProcess` fields the source reads. -/
structure RunOut where
  returncode : Int
  stdout : String
  stderr : String
  deriving DecidableEq

/-- The module-global `RepoContext` object: one optional repository path. -/
structure RepoContext where
  path : Option String
  deriving DecidableEq

/-- A filesystem / process side effect performed by an operation. -/
inductive Effect where
  | runProc (argv : List String) (cwd : Option String)
  | readF (path : String)
  | writeF (path : String) (content : String)
  deriving DecidableEq

/-- Oracles for the filesystem and the `git init` subprocess used by
`set_repo_path` and the inspection tools. -/
structure Env where
  pathExists : String → Bool
  isdir : String → Bool
  listdir : String → List String
  readFile : String → Except String String
  writeRes : String → Except String Unit
  gitInit : String → ProcResult

/-- `run_git_command(*args)`: guard on the context path, run `git args` in
the context directory (outcome given by the `proc` oracle), normalize the
result to a string. -/
def run_git_command (ctx : RepoContext) (proc : List String → ProcResult)
    (args : List String) : String :=
  match ctx.path with
  | none => "[ERROR] Repo path not set. Call set_repo_path() first."
  | some _ =>
    match proc args with
    | .ok out => if pyStrip out = "" then "[OK] Command succeeded." else pyStrip out
    | .err e => "[ERROR] " ++ pyStrip e

/-- `run_shell_command(cmd)`: same contract through a shell. -/
def run_shell_command (ctx : RepoContext) (shellProc : String → ProcResult)
    (cmd : String) : String :=
  match ctx.path with
  | none => "[ERROR] Repo path not set."
  | some _ =>
    match shellProc cmd with
    | .ok out => if pyStrip out = "" then "[OK] Command succeeded." else pyStrip out
    | .err e => "[ERROR] " ++ pyStrip e

/-- The preview block built at the end of a successful `set_repo_path`:
first 10 entries that are not hidden and not in the literal set
`.env / env / venv / .venv`, or `(empty)`. -/
def repoSetMsg (env : Env) (path : String) : String :=
  let files := (env.listdir path).filter
    (fun f => !strStartsWith f "." && !([".env", "env", "venv", ".venv"].contains f))
  let preview0 := String.intercalate "\n" ((files.take 10).map (fun f => "- " ++ f))
  let preview := if preview0 = "" then "(empty)" else preview0
  "✅ Repo set to: " ++ path ++ "\n📁 Preview:\n" ++ preview

/-- `set_repo_path(path)`: reject a missing path, store the path, run
`git init` (with `check=True`, so a failure raises) when no `.git`
directory exists, and return the preview message. The returned triple is
(result or escaping exception, resulting context, side effects). -/
def set_repo_path (env : Env) (ctx : RepoContext) (path : String) :
    Except PyExn String × RepoContext × List Effect :=
  if env.pathExists path = false then
    (.ok "[ERROR] Path does not exist.", ctx, [])
  else if env.isdir (osJoin path ".git") then
    (.ok (repoSetMsg env path), ⟨some path⟩, [])
  else
    match env.gitInit path with
    | .err e =>
      (.error (.calledProcessError e), ⟨some path⟩, [.runProc ["git", "init"] (some path)])
    | .ok _ =>
      (.ok (repoSetMsg env path), ⟨some path⟩, [.runProc ["git", "init"] (some path)])

/-- `commit_data(msg)`: stage everything, then commit, and join the two
result strings with a newline. -/
def commit_data (ctx : RepoContext) (proc : List String → ProcResult)
    (msg : String) : String :=
  let add_res := run_git_command ctx proc ["add", "."]
  let commit_res := run_git_command ctx proc ["commit", "-m", msg]
  add_res ++ "\n" ++ commit_res

/-- `recommend_action()`: run `git status`, then append one canned
suggestion line per marker substring found, in the fixed source order. -/
def recommend_action (ctx : RepoContext) (proc : List String → ProcResult) : String :=
  let status := run_git_command ctx proc ["status"]
  let recs := ["Here\u2019s my recommendation:\n"]
  let recs := if strContains status "Changes not staged" then
    recs ++ ["- Stage changes: add_data()\n"] else recs
  let recs := if strContains status "Changes to be committed" then
    recs ++ ["- Commit staged: commit_data(msg)\n"] else recs
  let recs := if strContains status "Untracked files" then
    recs ++ ["- Stage untracked: add_data()\n"] else recs
  let recs := if strContains status "ahead of" then
    recs ++ ["- Push to remote: push_changes()\n"] else recs
  let recs := if strContains status "working tree clean" then
    recs ++ ["- Tree clean: maybe switch_branch() or pull_changes().\n"] else recs
  if recs.length > 1 then String.join recs else "Nothing to recommend."

/-- The exclusion set of `list_repo_files` (which includes `README.md`). -/
def topLevelExcl : List String := [".env", "env", "venv", ".venv", "README.md", "__pycache__"]

/-- The exclusion set of `list_folder_contents` (no `README.md`). -/
def folderExcl : List String := [".env", "env", "venv", ".venv", "__pycache__"]

/-- `list_repo_files()`: top-level listing of the context path, minus
hidden names and `topLevelExcl`. -/
def list_repo_files (env : Env) (ctx : RepoContext) : String :=
  match ctx.path with
  | none => "[ERROR] Repo path not set."
  | some p =>
    let items := (env.listdir p).filter
      (fun f => !strStartsWith f "." && !(topLevelExcl.contains f))
    "📁 Files:\n" ++ String.intercalate "\n" (items.map (fun i => "- " ++ i))

/-- The list comprehension inside `list_folder_contents`: drop hidden names
and members of `folderExcl`. -/
def folderItems (names : List String) : List String :=
  names.filter (fun i => !strStartsWith i "." && !(folderExcl.contains i))

/-- `list_folder_contents(subpath)`: listing of `context path / subpath`,
or the not-a-directory error when the target is not a directory. -/
def list_folder_contents (env : Env) (ctx : RepoContext) (subpath : String) : String :=
  match ctx.path with
  | none => "[ERROR] Repo path not set."
  | some p =>
    let full := osJoin p subpath
    if env.isdir full = false then "[ERROR] " ++ subpath ++ " is not a directory."
    else
      "📂 Contents of " ++ subpath ++ ":\n" ++
        String.intercalate "\n" ((folderItems (env.listdir full)).map (fun i => "- " ++ i))

/-- A directory tree as enumerated by `os.walk` from the context path: the
directory's base name, its files and its subdirectories, each in listing
order. -/
inductive FTree where
  | dir (dirName : String) (files : List String) (subdirs : List FTree)

/-- Base name of a tree node. -/
def FTree.name : FTree → String
  | .dir n _ _ => n

/-- The set pruned from `dirs[:]` inside the `os.walk` loop of
`describe_structure`. -/
def walkDirExcl : List String := [".env", "env", "venv", ".venv", "__pycache__"]

/-- The directory filter `describe_structure` applies to `dirs[:]`. -/
def keepDir (d : String) : Bool := !strStartsWith d "." && !(walkDirExcl.contains d)

/-- The file filter of `describe_structure`: skip hidden files and the
literal set `README.md / .env`. -/
def keepFile (f : String) : Bool :=
  !(strStartsWith f "." || (["README.md", ".env"].contains f))

/-- The `'  ' * level` indentation of `describe_structure`. -/
def indentOf (level : Nat) : String := String.join (List.replicate level "  ")

mutual

/-- Lines `describe_structure` emits for one `os.walk` entry at the given
depth: the directory line, lines for its retained files, then the lines of
its retained subdirectories (pruned before descent). -/
def describe_lines (depth : Nat) : FTree → List String
  | .dir dn files subdirs =>
    (indentOf depth ++ "- " ++ dn ++ "/") ::
      ((files.filter keepFile).map (fun f => indentOf depth ++ "  - " ++ f) ++
        describe_forest (depth + 1) subdirs)

/-- Lines contributed by a list of sibling directories after the
`dirs[:] = [d for d in dirs if ...]` pruning. -/
def describe_forest (depth : Nat) : List FTree → List String
  | [] => []
  | t :: ts => (if keepDir t.name then describe_lines depth t else []) ++ describe_forest depth ts

end

/-- `describe_structure()`: the guarded recursive walk, joined by newlines. -/
def describe_structure (ctx : RepoContext) (tree : FTree) : String :=
  match ctx.path with
  | none => "[ERROR] Repo path not set."
  | some _ => String.intercalate "\n" (describe_lines 0 tree)

/-- `update_readme()`: append the structure report to `README.md` at the
context root; an I/O failure (oracle `writeRes`) becomes an error string. -/
def update_readme (env : Env) (ctx : RepoContext) (tree : FTree) : String × List Effect :=
  match ctx.path with
  | none => ("[ERROR] Repo path not set.", [])
  | some p =>
    let readme_path := osJoin p "README.md"
    let content := "\n\n# Project Structure\n\n" ++ describe_structure ctx tree ++ "\n"
    match env.writeRes readme_path with
    | .ok _ => ("✅ Appended project structure to README.md.", [.writeF readme_path content])
    | .error e => ("[ERROR] Failed to update README.md: " ++ e, [])

/-- `get_file_content(file_name)`: read `context path / file_name`; every
exception inside the `try` (a read failure, or the `TypeError` from joining
an unset path) is converted to the could-not-read string. -/
def get_file_content (env : Env) (ctx : RepoContext) (file_name : String) :
    String × List Effect :=
  match ctx.path with
  | none => ("[ERROR] Could not read " ++ file_name ++ ": " ++ joinNoneTypeErrorMsg, [])
  | some p =>
    let file_path := osJoin p file_name
    match env.readFile file_path with
    | .ok text => (text, [.readF file_path])
    | .error e => ("[ERROR] Could not read " ++ file_name ++ ": " ++ e, [.readF file_path])

/-- A JSON value, as handled by `json.load` / `json.dump`. -/
inductive Json where
  | null
  | bool (b : Bool)
  | num (n : Int)
  | str (s : String)
  | arr (elems : List Json)
  | obj (fields : List (String × Json))

/-- State of `context.json`: `none` when the file is absent, `some none`
when it holds text that is not valid JSON, `some (some j)` when it parses
as `j`. -/
abbrev FileState := Option (Option Json)

/-- `update_code_context(content)`: note the `os.path.join` on the context
path sits before the `try`, so an unset path raises a `TypeError` to the
caller. Otherwise: absent or invalid JSON starts from an empty list, a
valid non-list is wrapped, the new entry is appended and the whole list is
written back (`writeRes` is the outcome of that write). -/
def update_code_context (ctx : RepoContext) (file : FileState)
    (writeRes : Except String Unit) (content : Json) :
    Except PyExn String × FileState :=
  match ctx.path with
  | none => (.error (.typeError joinNoneTypeErrorMsg), file)
  | some _ =>
    let existing_data : List Json :=
      match file with
      | none => []
      | some none => []
      | some (some (Json.arr xs)) => xs
      | some (some j) => [j]
    let newData := existing_data ++ [content]
    match writeRes with
    | .ok _ =>
      (.ok "✅ Appended new context to context.json successfully.", some (some (Json.arr newData)))
    | .error e => (.ok ("[ERROR] Failed to update context.json: " ++ e), file)

/-- `build_docker_image(tag)`: run `docker build -t tag .` with
`cwd=repo_context.path`; with an unset path `subprocess.run` receives
`cwd=None` and runs in the current process directory, so the build is
attempted either way. No `check=True`: the return code is inspected. -/
def build_docker_image (docker : List String → Option String → RunOut)
    (ctx : RepoContext) (tag : String) : String × List Effect :=
  let argv := ["docker", "build", "-t", tag, "."]
  let result := docker argv ctx.path
  let msg :=
    if result.returncode = 0 then
      "✅ Docker image built successfully with tag: " ++ tag
    else
      "[ERROR] Docker build failed:\n" ++ result.stdout ++ "\n" ++ result.stderr
  (msg, [Effect.runProc argv ctx.path])

/-- `get_available_port(start_port, end_port)`: first port in
`[start_port, end_port)` that binds (oracle `bindOk`), else a raised
`RuntimeError`. -/
def get_available_port (bindOk : Nat → Bool) (start_port end_port : Nat) :
    Except PyExn Nat :=
  match (List.range' start_port (end_port - start_port)).find? bindOk with
  | some port => .ok port
  | none =>
    .error (.runtimeError
      ("No free ports found in range " ++ toString start_port ++ "-" ++ toString end_port))

/-- Oracles for the two docker subprocesses of `run_docker_container`:
`runCmd tag` is the outcome of `docker run -d tag`, `logsCmd cid` of
`docker logs cid`. -/
structure DockerEnv where
  runCmd : String → RunOut
  logsCmd : String → RunOut

/-- `run_docker_container(tag)`: report a failed run; on success take the
container id from trimmed stdout, fetch its logs, report a crash when the
log text contains `Traceback` or `Exception`, else report success with the
container id. -/
def run_docker_container (env : DockerEnv) (tag : String) : String :=
  let result := env.runCmd tag
  if result.returncode ≠ 0 then
    "[ERROR] Docker run failed:\n" ++ result.stdout ++ "\n" ++ result.stderr
  else
    let container_id := pyStrip result.stdout
    let logs := env.logsCmd container_id
    if strContains logs.stdout "Traceback" || strContains logs.stdout "Exception" then
      "[ERROR] Container log shows crash:\n" ++ logs.stdout
    else
      "🚀 Docker container running!\nContainer ID: " ++ container_id

/-- Does a result string carry the source's error prefix? -/
def isErrorResult (s : String) : Bool := startsWithChars ("[ERROR]".data) s.data

/-- C6: for every message and context state, `commit_data` returns a string
containing the staging-step result and the commit-step result, with the
stage result first. -/
theorem commit_data_contains_both (ctx : RepoContext)
    (proc : List String → ProcResult) (msg : String) :
    ∃ mid, commit_data ctx proc msg =
      run_git_command ctx proc ["add", "."] ++ mid ++
        run_git_command ctx proc ["commit", "-m", msg] :=
  ⟨"\n", rfl⟩

/-- C8: `set_repo_path` on a path that does not exist returns the
path-not-found error text, leaves the stored context unchanged and performs
no side effect. -/
theorem set_repo_path_path_not_found (env : Env) (ctx : RepoContext) (path : String)
    (h : env.pathExists path = false) :
    set_repo_path env ctx path = (.ok "[ERROR] Path does not exist.", ctx, []) := by
  simp [set_repo_path, h]

/-- Concrete run of C8: an environment on which no path exists. -/
def envNoPath : Env where
  pathExists := fun _ => false
  isdir := fun _ => false
  listdir := fun _ => []
  readFile := fun _ => .error "missing"
  writeRes := fun _ => .ok ()
  gitInit := fun _ => .ok ""

theorem set_repo_path_path_not_found_witness :
    set_repo_path envNoPath ⟨none⟩ "/missing" =
      (.ok "[ERROR] Path does not exist.", (⟨none⟩ : RepoContext), []) :=
  set_repo_path_path_not_found envNoPath ⟨none⟩ "/missing" rfl

/-- C10: on an existing path without version-control metadata,
`set_repo_path` stores the path into the context before running `git init`,
so when the init subprocess fails the call raises while the context already
holds the new path. -/
theorem set_repo_path_mutates_before_init (env : Env) (ctx : RepoContext)
    (path er : String)
    (h1 : env.pathExists path = true)
    (h2 : env.isdir (osJoin path ".git") = false)
    (h3 : env.gitInit path = .err er) :
    set_repo_path env ctx path =
      (.error (.calledProcessError er), ⟨some path⟩,
        [.runProc ["git", "init"] (some path)]) := by
  simp [set_repo_path, h1, h2, h3]

/-- An environment where the target path exists, has no `.git` directory,
and `git init` fails. -/
def envInitFails : Env where
  pathExists := fun _ => true
  isdir := fun _ => false
  listdir := fun _ => ["main.py"]
  readFile := fun _ => .error "missing"
  writeRes := fun _ => .ok ()
  gitInit := fun _ => .err "fatal: cannot init"

theorem set_repo_path_mutates_before_init_witness :
    set_repo_path envInitFails ⟨none⟩ "/repo" =
      (.error (.calledProcessError "fatal: cannot init"), (⟨some "/repo"⟩ : RepoContext),
        [.runProc ["git", "init"] (some "/repo")]) :=
  set_repo_path_mutates_before_init envInitFails ⟨none⟩ "/repo" "fatal: cannot init"
    rfl rfl rfl

/-- A second init-failing environment, used to refute C2 as stated. -/
def envInitFails2 : Env where
  pathExists := fun _ => true
  isdir := fun _ => false
  listdir := fun _ => []
  readFile := fun _ => .error "missing"
  writeRes := fun _ => .ok ()
  gitInit := fun _ => .err "fatal: init failed"

/-- C2 is false as stated: `get_available_port` on an exhausted range
raises a `RuntimeError` instead of returning an error string, and
`set_repo_path` lets the `CalledProcessError` of a failing `git init`
escape instead of returning an error string. -/
theorem no_throw_counterexample :
    get_available_port (fun _ => false) 8000 8100 =
      .error (.runtimeError "No free ports found in range 8000-8100") ∧
    (set_repo_path envInitFails2 ⟨none⟩ "/repo").1 =
      .error (.calledProcessError "fatal: init failed") := by
  constructor
  · rfl
  · rfl

/-- C2 amended: git-command and shell-command failures are converted to
`[ERROR]`-prefixed strings, but `get_available_port` raises `RuntimeError`
when no port in the range binds, and `set_repo_path` propagates the init
subprocess's exception when `git init` fails. -/
theorem error_propagation_amended :
    (∀ (ctx : RepoContext) (proc : List String → ProcResult) (p er : String)
        (args : List String), ctx.path = some p → proc args = .err er →
      run_git_command ctx proc args = "[ERROR] " ++ pyStrip er) ∧
    (∀ (ctx : RepoContext) (shellProc : String → ProcResult) (p er cmd : String),
        ctx.path = some p → shellProc cmd = .err er →
      run_shell_command ctx shellProc cmd = "[ERROR] " ++ pyStrip er) ∧
    (∀ (bindOk : Nat → Bool) (s e : Nat),
        (∀ q, q ∈ List.range' s (e - s) → bindOk q = false) →
      get_available_port bindOk s e =
        .error (.runtimeError
          ("No free ports found in range " ++ toString s ++ "-" ++ toString e))) ∧
    (∀ (env : Env) (ctx : RepoContext) (path er : String),
        env.pathExists path = true → env.isdir (osJoin path ".git") = false →
        env.gitInit path = .err er →
      (set_repo_path env ctx path).1 = .error (.calledProcessError er)) := by
  refine ⟨?_, ?_, ?_, ?_⟩
  · intro ctx proc p er args hp hargs
    simp [run_git_command, hp, hargs]
  · intro ctx shellProc p er cmd hp hcmd
    simp [run_shell_command, hp, hcmd]
  · intro bindOk s e hnone
    have hfind : (List.range' s (e - s)).find? bindOk = none := by
      rw [List.find?_eq_none]
      intro q hq
      simp [hnone q hq]
    simp [get_available_port, hfind]
  · intro env ctx path er h1 h2 h3
    simp [set_repo_path, h1, h2, h3]

theorem error_propagation_amended_witness :
    run_git_command ⟨some "/repo"⟩ (fun _ => .err " boom ") ["status"] =
      "[ERROR] boom" ∧
    run_shell_command ⟨some "/repo"⟩ (fun _ => .err "denied") "ls" =
      "[ERROR] denied" ∧
    get_available_port (fun _ => false) 9000 9002 =
      .error (.runtimeError "No free ports found in range 9000-9002") ∧
    (set_repo_path envInitFails ⟨none⟩ "/repo").1 =
      .error (.calledProcessError "fatal: cannot init") := by
  refine ⟨?_, ?_, ?_, ?_⟩
  · exact (error_propagation_amended.1 ⟨some "/repo"⟩ (fun _ => .err " boom ")
      "/repo" " boom " ["status"] rfl rfl).trans (by decide)
  · exact (error_propagation_amended.2.1 ⟨some "/repo"⟩ (fun _ => .err "denied")
      "/repo" "denied" "ls" rfl rfl).trans (by decide)
  · exact error_propagation_amended.2.2.1 (fun _ => false) 9000 9002 (fun q _ => rfl)
  · exact error_propagation_amended.2.2.2 envInitFails ⟨none⟩ "/repo" "fatal: cannot init"
      rfl rfl rfl

/-- A docker oracle whose build always succeeds with empty output. -/
def dockerAlwaysOk : List String → Option String → RunOut := fun _ _ => ⟨0, "", ""⟩

/-- C1 is false as stated: with the context path unset, `build_docker_image`
still runs the build subprocess (with `cwd=None`, i.e. in the current
process directory) and returns the build result, not the context-not-set
error text. -/
theorem context_not_set_counterexample :
    (build_docker_image dockerAlwaysOk ⟨none⟩ "my_app_image").2 =
      [Effect.runProc ["docker", "build", "-t", "my_app_image", "."] none] ∧
    (build_docker_image dockerAlwaysOk ⟨none⟩ "my_app_image").1 =
      "✅ Docker image built successfully with tag: my_app_image" ∧
    (build_docker_image dockerAlwaysOk ⟨none⟩ "my_app_image").1 ≠
      "[ERROR] Repo path not set." ∧
    (build_docker_image dockerAlwaysOk ⟨none⟩ "my_app_image").1 ≠
      "[ERROR] Repo path not set. Call set_repo_path() first." := by
  refine ⟨rfl, rfl, by decide, by decide⟩

/-- C1 amended: the operations that begin with an explicit check of the
context path return the context-not-set error text with no side effect when
the path is unset; but `get_file_content` instead returns its could-not-read
text (it catches the `TypeError` of joining `None`), `update_code_context`
raises that `TypeError` to the caller, and `build_docker_image` runs the
build subprocess in the process's current directory. -/
theorem context_not_set_amended :
    (∀ (proc : List String → ProcResult) (args : List String),
      run_git_command ⟨none⟩ proc args =
        "[ERROR] Repo path not set. Call set_repo_path() first.") ∧
    (∀ (proc : String → ProcResult) (cmd : String),
      run_shell_command ⟨none⟩ proc cmd = "[ERROR] Repo path not set.") ∧
    (∀ env : Env, list_repo_files env ⟨none⟩ = "[ERROR] Repo path not set.") ∧
    (∀ (env : Env) (sub : String),
      list_folder_contents env ⟨none⟩ sub = "[ERROR] Repo path not set.") ∧
    (∀ t : FTree, describe_structure ⟨none⟩ t = "[ERROR] Repo path not set.") ∧
    (∀ (env : Env) (t : FTree),
      update_readme env ⟨none⟩ t = ("[ERROR] Repo path not set.", [])) ∧
    (∀ (env : Env) (fname : String),
      get_file_content env ⟨none⟩ fname =
        ("[ERROR] Could not read " ++ fname ++ ": " ++ joinNoneTypeErrorMsg, [])) ∧
    (∀ (file : FileState) (w : Except String Unit) (content : Json),
      update_code_context ⟨none⟩ file w content =
        (.error (.typeError joinNoneTypeErrorMsg), file)) ∧
    (∀ (docker : List String → Option String → RunOut) (tag : String),
      (build_docker_image docker ⟨none⟩ tag).2 =
        [.runProc ["docker", "build", "-t", tag, "."] none]) :=
  ⟨fun _ _ => rfl, fun _ _ => rfl, fun _ => rfl, fun _ _ => rfl, fun _ => rfl,
    fun _ _ => rfl, fun _ _ => rfl, fun _ _ _ => rfl, fun _ _ => rfl⟩

/-- C5: `update_code_context` appends in call order on an initially absent
`context.json`; invalid JSON content is discarded in favor of a fresh
single-entry list; valid non-list JSON is wrapped before the append. -/
theorem update_code_context_append_claim (p : String) (e1 e2 j enew : Json)
    (hne : e1 ≠ e2) (hj : ∀ xs, j ≠ Json.arr xs) :
    (update_code_context ⟨some p⟩ none (.ok ()) e1 =
      (.ok "✅ Appended new context to context.json successfully.",
        some (some (Json.arr [e1]))) ∧
     update_code_context ⟨some p⟩ (some (some (Json.arr [e1]))) (.ok ()) e2 =
      (.ok "✅ Appended new context to context.json successfully.",
        some (some (Json.arr [e1, e2])))) ∧
    update_code_context ⟨some p⟩ (some none) (.ok ()) e1 =
      (.ok "✅ Appended new context to context.json successfully.",
        some (some (Json.arr [e1]))) ∧
    update_code_context ⟨some p⟩ (some (some j)) (.ok ()) enew =
      (.ok "✅ Appended new context to context.json successfully.",
        some (some (Json.arr [j, enew]))) := by
  refine ⟨⟨rfl, rfl⟩, rfl, ?_⟩
  cases j with
  | null => rfl
  | bool b => rfl
  | num n => rfl
  | str s => rfl
  | arr xs => exact absurd rfl (hj xs)
  | obj kvs => rfl

theorem update_code_context_append_claim_witness :
    (update_code_context ⟨some "/repo"⟩ none (.ok ()) (Json.str "first") =
      (.ok "✅ Appended new context to context.json successfully.",
        some (some (Json.arr [Json.str "first"]))) ∧
     update_code_context ⟨some "/repo"⟩ (some (some (Json.arr [Json.str "first"])))
        (.ok ()) (Json.str "second") =
      (.ok "✅ Appended new context to context.json successfully.",
        some (some (Json.arr [Json.str "first", Json.str "second"])))) ∧
    update_code_context ⟨some "/repo"⟩ (some none) (.ok ()) (Json.str "first") =
      (.ok "✅ Appended new context to context.json successfully.",
        some (some (Json.arr [Json.str "first"]))) ∧
    update_code_context ⟨some "/repo"⟩ (some (some Json.null)) (.ok ()) (Json.str "third") =
      (.ok "✅ Appended new context to context.json successfully.",
        some (some (Json.arr [Json.null, Json.str "third"]))) :=
  update_code_context_append_claim "/repo" (Json.str "first") (Json.str "second")
    Json.null (Json.str "third")
    (by intro h; injection h with h2; exact absurd h2 (by decide))
    (fun xs h => Json.noConfusion h)

/-- A filesystem whose directories all contain exactly `README.md`. -/
def envReadmeOnly : Env where
  pathExists := fun _ => true
  isdir := fun _ => true
  listdir := fun _ => ["README.md"]
  readFile := fun _ => .error "missing"
  writeRes := fun _ => .ok ()
  gitInit := fun _ => .ok ""

/-- C3 is false as stated: `list_folder_contents` does not exclude
`README.md` (its exclusion set omits it), while `list_repo_files` on the
same listing does exclude it. -/
theorem list_folder_contents_counterexample :
    list_folder_contents envReadmeOnly ⟨some "/repo"⟩ "docs" =
      "📂 Contents of docs:\n- README.md" ∧
    topLevelExcl.contains "README.md" = true ∧
    folderExcl.contains "README.md" = false ∧
    list_repo_files envReadmeOnly ⟨some "/repo"⟩ = "📁 Files:\n" := by
  refine ⟨rfl, rfl, rfl, rfl⟩

/-- C3 amended: for a non-directory target `list_folder_contents` returns
the not-a-directory error text; for a directory it lists the entries of
`context path / subpath` excluding hidden entries and
`.env / env / venv / .venv / __pycache__` — without `README.md`, unlike
`list_repo_files`, so a `README.md` entry is always retained. -/
theorem list_folder_contents_amended (env : Env) (p subpath : String) :
    (env.isdir (osJoin p subpath) = false →
      list_folder_contents env ⟨some p⟩ subpath =
        "[ERROR] " ++ subpath ++ " is not a directory.") ∧
    (∀ i, i ∈ folderItems (env.listdir (osJoin p subpath)) ↔
      i ∈ env.listdir (osJoin p subpath) ∧ strStartsWith i "." = false ∧
        folderExcl.contains i = false) ∧
    ("README.md" ∈ env.listdir (osJoin p subpath) →
      "README.md" ∈ folderItems (env.listdir (osJoin p subpath))) ∧
    (env.isdir (osJoin p subpath) = true →
      list_folder_contents env ⟨some p⟩ subpath =
        "📂 Contents of " ++ subpath ++ ":\n" ++
          String.intercalate "\n"
            ((folderItems (env.listdir (osJoin p subpath))).map (fun i => "- " ++ i))) := by
  have hmem : ∀ i, i ∈ folderItems (env.listdir (osJoin p subpath)) ↔
      i ∈ env.listdir (osJoin p subpath) ∧ strStartsWith i "." = false ∧
        folderExcl.contains i = false := by
    intro i
    simp [folderItems, List.mem_filter, Bool.and_eq_true, Bool.not_eq_true']
  refine ⟨?_, hmem, ?_, ?_⟩
  · intro h
    simp [list_folder_contents, h]
  · intro hin
    exact (hmem "README.md").2 ⟨hin, rfl, rfl⟩
  · intro h
    simp [list_folder_contents, h, folderItems]

theorem list_folder_contents_amended_witness :
    list_folder_contents envNoPath ⟨some "/repo"⟩ "main.py" =
      "[ERROR] main.py is not a directory." ∧
    ("README.md" ∈ folderItems (envReadmeOnly.listdir (osJoin "/repo" "docs"))) ∧
    list_folder_contents envReadmeOnly ⟨some "/repo"⟩ "src" =
      "📂 Contents of src:\n" ++
        String.intercalate "\n"
          ((folderItems (envReadmeOnly.listdir (osJoin "/repo" "src"))).map
            (fun i => "- " ++ i)) :=
  ⟨(list_folder_contents_amended envNoPath "/repo" "main.py").1 rfl,
   (list_folder_contents_amended envReadmeOnly "/repo" "docs").2.2.1 (by decide),
   (list_folder_contents_amended envReadmeOnly "/repo" "src").2.2.2 rfl⟩

mutual

/-- The tree with exactly the entries `describe_structure` can display:
files failing `keepFile` and subdirectories failing `keepDir` removed,
recursively. -/
def pruneTree : FTree → FTree
  | .dir dn files subdirs => .dir dn (files.filter keepFile) (pruneForest subdirs)

/-- Prune a list of sibling directories. -/
def pruneForest : List FTree → List FTree
  | [] => []
  | t :: ts => (if keepDir t.name then [pruneTree t] else []) ++ pruneForest ts

end

theorem pruneTree_name (t : FTree) : (pruneTree t).name = t.name := by
  cases t
  rfl

theorem describe_prune_aux (n : Nat) :
    (∀ t : FTree, sizeOf t ≤ n → ∀ depth,
      describe_lines depth t = describe_lines depth (pruneTree t)) ∧
    (∀ ts : List FTree, sizeOf ts ≤ n → ∀ depth,
      describe_forest depth ts = describe_forest depth (pruneForest ts)) := by
  induction n using Nat.strong_induction_on with
  | _ n ih =>
    constructor
    · intro t ht depth
      cases t with
      | dir dn files subdirs =>
        have hspec := FTree.dir.sizeOf_spec dn files subdirs
        have hs : sizeOf subdirs < n := by omega
        have hf := (ih (sizeOf subdirs) hs).2 subdirs (Nat.le_refl _) (depth + 1)
        simp only [describe_lines, pruneTree, List.filter_filter, Bool.and_self]
        rw [hf]
    · intro ts hts depth
      cases ts with
      | nil => rfl
      | cons t ts' =>
        have hspec := List.cons.sizeOf_spec t ts'
        have h1 : sizeOf t < n := by omega
        have h2 : sizeOf ts' < n := by omega
        have htr := (ih (sizeOf t) h1).1 t (Nat.le_refl _) depth
        have hre := (ih (sizeOf ts') h2).2 ts' (Nat.le_refl _) depth
        by_cases hk : keepDir t.name = true
        · simp only [describe_forest, pruneForest, hk, if_true, List.singleton_append,
            pruneTree_name, htr, hre]
        · have hk' : keepDir t.name = false := by
            cases hkb : keepDir t.name
            · rfl
            · exact absurd hkb hk
          simp only [describe_forest, pruneForest, hk', List.nil_append,
            pruneTree_name, hre, Bool.false_eq_true, if_false]

/-- C4 amended: the output of `describe_structure` depends only on the
pruned tree — a subdirectory that is hidden or in
`.env / env / venv / .venv / __pycache__` contributes nothing at any depth,
and a file that is hidden or named `README.md` / `.env` contributes
nothing — but a file named `env`, `venv`, `.venv` or `__pycache__` is
retained, as is a directory named `README.md`. -/
theorem describe_structure_excludes :
    (∀ (p : String) (t : FTree),
      describe_structure ⟨some p⟩ t = describe_structure ⟨some p⟩ (pruneTree t)) ∧
    (∀ (depth : Nat) (t : FTree),
      describe_lines depth t = describe_lines depth (pruneTree t)) ∧
    keepDir ".git" = false ∧ keepDir ".env" = false ∧ keepDir "env" = false ∧
    keepDir "venv" = false ∧ keepDir ".venv" = false ∧ keepDir "__pycache__" = false ∧
    keepFile ".gitignore" = false ∧ keepFile "README.md" = false ∧
    keepFile ".env" = false ∧
    keepFile "env" = true ∧ keepFile "venv" = true ∧ keepFile "__pycache__" = true ∧
    keepDir "README.md" = true := by
  have hlines : ∀ (depth : Nat) (t : FTree),
      describe_lines depth t = describe_lines depth (pruneTree t) := fun depth t =>
    (describe_prune_aux (sizeOf t)).1 t (Nat.le_refl _) depth
  refine ⟨?_, hlines, rfl, rfl, rfl, rfl, rfl, rfl, rfl, rfl, rfl, rfl, rfl, rfl, rfl⟩
  intro p t
  simp only [describe_structure, hlines 0 t]

/-- C4 is false as stated: a file named `env` — a member of the claimed
exclusion set — is listed by `describe_structure`, because the file filter
only skips hidden names, `README.md` and `.env`. -/
theorem describe_structure_counterexample :
    describe_structure ⟨some "/repo"⟩ (.dir "repo" ["env"] []) = "- repo/\n  - env" ∧
    topLevelExcl.contains "env" = true := by
  exact ⟨rfl, rfl⟩

/-- C7: when the status text contains both the unstaged-changes and the
untracked-files markers, `recommend_action` emits both suggestion lines with
the unstaged-changes line first, whatever their order in the status text;
when none of the five markers occurs, it returns the fixed
nothing-to-recommend string. -/
theorem recommend_action_claim (ctx : RepoContext) (proc : List String → ProcResult) :
    (strContains (run_git_command ctx proc ["status"]) "Changes not staged" = true →
     strContains (run_git_command ctx proc ["status"]) "Untracked files" = true →
      ∃ a b c, recommend_action ctx proc =
        a ++ "- Stage changes: add_data()\n" ++ b ++
          "- Stage untracked: add_data()\n" ++ c) ∧
    (strContains (run_git_command ctx proc ["status"]) "Changes not staged" = false →
     strContains (run_git_command ctx proc ["status"]) "Changes to be committed" = false →
     strContains (run_git_command ctx proc ["status"]) "Untracked files" = false →
     strContains (run_git_command ctx proc ["status"]) "ahead of" = false →
     strContains (run_git_command ctx proc ["status"]) "working tree clean" = false →
      recommend_action ctx proc = "Nothing to recommend.") := by
  constructor
  · intro h1 h3
    cases h2 : strContains (run_git_command ctx proc ["status"]) "Changes to be committed" <;>
      cases h4 : strContains (run_git_command ctx proc ["status"]) "ahead of" <;>
        cases h5 : strContains (run_git_command ctx proc ["status"]) "working tree clean" <;>
          simp only [recommend_action, h1, h2, h3, h4, h5, if_true,
            Bool.false_eq_true, if_false] <;>
          first
          | exact ⟨"Here\u2019s my recommendation:\n", "", "", by rfl⟩
          | exact ⟨"Here\u2019s my recommendation:\n", "",
              "- Push to remote: push_changes()\n", by rfl⟩
          | exact ⟨"Here\u2019s my recommendation:\n", "",
              "- Tree clean: maybe switch_branch() or pull_changes().\n", by rfl⟩
          | exact ⟨"Here\u2019s my recommendation:\n", "",
              "- Push to remote: push_changes()\n" ++
                "- Tree clean: maybe switch_branch() or pull_changes().\n", by rfl⟩
          | exact ⟨"Here\u2019s my recommendation:\n",
              "- Commit staged: commit_data(msg)\n", "", by rfl⟩
          | exact ⟨"Here\u2019s my recommendation:\n",
              "- Commit staged: commit_data(msg)\n",
              "- Push to remote: push_changes()\n", by rfl⟩
          | exact ⟨"Here\u2019s my recommendation:\n",
              "- Commit staged: commit_data(msg)\n",
              "- Tree clean: maybe switch_branch() or pull_changes().\n", by rfl⟩
          | exact ⟨"Here\u2019s my recommendation:\n",
              "- Commit staged: commit_data(msg)\n",
              "- Push to remote: push_changes()\n" ++
                "- Tree clean: maybe switch_branch() or pull_changes().\n", by rfl⟩
  · intro h1 h2 h3 h4 h5
    simp only [recommend_action, h1, h2, h3, h4, h5, Bool.false_eq_true, if_false]
    rfl

/-- A status oracle reporting both unstaged changes and untracked files,
with the untracked-files marker first in the text. -/
def procBothMarkers : List String → ProcResult := fun _ =>
  .ok "On branch main\nUntracked files:\n  new.py\nChanges not staged for commit:\n  old.py"

/-- A status oracle whose text matches none of the five markers. -/
def procNoMarkers : List String → ProcResult := fun _ => .ok "On branch main"

theorem recommend_action_claim_witness :
    (∃ a b c, recommend_action ⟨some "/repo"⟩ procBothMarkers =
      a ++ "- Stage changes: add_data()\n" ++ b ++
        "- Stage untracked: add_data()\n" ++ c) ∧
    recommend_action ⟨some "/repo"⟩ procNoMarkers = "Nothing to recommend." :=
  ⟨(recommend_action_claim ⟨some "/repo"⟩ procBothMarkers).1 (by decide) (by decide),
   (recommend_action_claim ⟨some "/repo"⟩ procNoMarkers).2
     (by decide) (by decide) (by decide) (by decide) (by decide)⟩

theorem isErrorResult_crash (s : String) :
    isErrorResult ("[ERROR] Container log shows crash:\n" ++ s) = true := by
  cases s
  rfl

theorem isErrorResult_running (s : String) :
    isErrorResult ("🚀 Docker container running!\nContainer ID: " ++ s) = false := by
  cases s
  rfl

/-- C9: when `docker run -d` succeeds, `run_docker_container` inspects the
logs of the new container (trimmed stdout of the run) and its result is an
error exactly when the log text contains one of the crash markers
`Traceback` / `Exception`; with no marker it returns the success string
carrying the container id. -/
theorem run_docker_container_claim (env : DockerEnv) (tag : String)
    (h : (env.runCmd tag).returncode = 0) :
    isErrorResult (run_docker_container env tag) =
      (strContains (env.logsCmd (pyStrip (env.runCmd tag).stdout)).stdout "Traceback" ||
       strContains (env.logsCmd (pyStrip (env.runCmd tag).stdout)).stdout "Exception") ∧
    ((strContains (env.logsCmd (pyStrip (env.runCmd tag).stdout)).stdout "Traceback" ||
      strContains (env.logsCmd (pyStrip (env.runCmd tag).stdout)).stdout "Exception") = false →
      run_docker_container env tag =
        "🚀 Docker container running!\nContainer ID: " ++ pyStrip (env.runCmd tag).stdout) := by
  have hne : ¬((env.runCmd tag).returncode ≠ 0) := by rw [h]; exact fun hx => hx rfl
  constructor
  · cases hm : (strContains (env.logsCmd (pyStrip (env.runCmd tag).stdout)).stdout "Traceback" ||
        strContains (env.logsCmd (pyStrip (env.runCmd tag).stdout)).stdout "Exception")
    · simp only [run_docker_container, if_neg hne, hm, Bool.false_eq_true, if_false]
      exact isErrorResult_running _
    · simp only [run_docker_container, if_neg hne, hm, if_true]
      exact isErrorResult_crash _
  · intro hm
    simp only [run_docker_container, if_neg hne, hm, Bool.false_eq_true, if_false]

/-- A docker oracle whose run succeeds and whose logs show no crash. -/
def dockerEnvOk : DockerEnv where
  runCmd := fun _ => ⟨0, "abc123\n", ""⟩
  logsCmd := fun _ => ⟨0, "Server started on port 8000", ""⟩

theorem run_docker_container_claim_witness :
    isErrorResult (run_docker_container dockerEnvOk "my_app_image") = false ∧
    run_docker_container dockerEnvOk "my_app_image" =
      "🚀 Docker container running!\nContainer ID: abc123" := by
  have h := run_docker_container_claim dockerEnvOk "my_app_image" rfl
  exact ⟨h.1.trans (by decide), (h.2 (by decide)).trans (by decide)⟩
